import Mathlib

/-!
# Daemon Arena — formal model of the challenge/match engine

Shallow embedding of the daemon-arena server (`src/unnamed/part_000`, the
route handlers and matchmaking), the persistence layer (`src/database.js`)
and the challenge engine.  The challenge engine itself (`challenges.js`,
the `ChallengeGenerator` class) is required by the server but its source is
not part of the repository snapshot; the definitions that stand in for it
are modelled from the specification and from `src/public/SKILL.md` and are
marked `Modelled from the spec:` in their doc comments.  Everything else is
translated directly from the JavaScript source.
-/

namespace DaemonArena

/-! ## Character/string helpers (pure, executable) -/

/-- `beginsWith t s` is true when the token `t` is a prefix of `s`
(character-list version of JavaScript `String.prototype.startsWith`). -/
def beginsWith : List Char → List Char → Bool
  | [], _ => true
  | _ :: _, [] => false
  | a :: t, b :: s => a == b && beginsWith t s

/-- `occursIn t s` is true when the token `t` occurs contiguously inside `s`
(character-list version of JavaScript `String.prototype.includes`). -/
def occursIn (t : List Char) : List Char → Bool
  | [] => beginsWith t []
  | c :: s => beginsWith t (c :: s) || occursIn t s

/-- `containsTok s t` : the string `s` contains the token `t` as a substring. -/
def containsTok (s t : String) : Bool := occursIn t.data s.data

/-- Lower-case every character of a string (model of `toLowerCase`). -/
def lowerStr (s : String) : String := String.mk (s.data.map Char.toLower)

/-- Caesar-shift a single upper-case letter by `k`; other characters pass through. -/
def shiftChar (k : Nat) (c : Char) : Char :=
  if 'A' ≤ c ∧ c ≤ 'Z' then Char.ofNat ('A'.toNat + ((c.toNat - 'A'.toNat + k) % 26)) else c

/-- Caesar cipher over a string. -/
def caesar (k : Nat) (s : String) : String := String.mk (s.data.map (shiftChar k))

/-! ## Seeded generator

Modelled from the spec: §4.1 requires a deterministic pseudo-random stream
derived solely from the externally supplied seed string, with no hidden
global state; the concrete mixing constants below realise the "linear
generator keyed by the seed" the spec allows. -/

/-- Modelled from the spec: hash the seed string into an initial generator
state (pure fold over the characters; the sole source of randomness). -/
def seedNum (s : String) : Nat := s.data.foldl (fun a c => (a * 31 + c.toNat) % 1000003) 7

/-- Modelled from the spec: one step of the linear generator (§4.1,
`next(seedState) → (value, seedState')`); the state is just a `Nat`. -/
def lcgNext (st : Nat) : Nat := (st * 1103515245 + 12345) % 2147483648

/-- The `i`-th pseudo-random draw for a seed: iterate the linear generator
`i+1` times from the seeded state. -/
def draw (seed : String) (i : Nat) : Nat := (lcgNext^[i + 1]) (seedNum seed)

/-! ## Challenge data model

Modelled from the spec (§3) and from the shape the server code manipulates:
`challenge_data` is a JSON object whose optional fields include the private
`answer`, `solution`, `plaintext` and `key`, and (for `code_golf`) a
`testCases` array whose entries pair a public `input` with a private
`expected` output.  Absent JSON fields are `none`. -/

structure TestCase where
  input : String
  expected : Option String
  description : Option String
  deriving Repr, DecidableEq

structure ChallengeData where
  type : String
  difficulty : Nat
  title : String
  description : String
  timeLimit : Nat
  ciphertext : Option String
  answer : Option String
  solution : Option String
  plaintext : Option String
  key : Option String
  testCases : Option (List TestCase)
  target : Option String
  deriving Repr, DecidableEq

/-- The catalogue of challenge types (`challengeGen.challengeTypes`). -/
def challengeTypes : List String := ["cipher_break", "code_golf", "hash_hunt"]

/-- Modelled from the spec: the fixed message pool for the cipher family
(§4.2; the real pool has ≥50 entries, this model keeps a representative
subset — no claim depends on the pool's size). -/
def messagePool : List String :=
  ["THE QUICK BROWN FOX JUMPS OVER THE LAZY DOG",
   "HELLO WORLD",
   "DAEMON ARENA AWAITS",
   "WINNER TAKES THE POT",
   "PROOF OF WORK",
   "SEEDED RANDOMNESS",
   "FIRST CORRECT ANSWER WINS",
   "TRUST BUT VERIFY"]

/-- Modelled from the spec: when `type` is null/omitted, `generate` "falls
back to a default type ... by drawing one from the catalogue using the
seed" (§6).  Depends only on the seed. -/
def chooseFallback (seed : String) : String :=
  challengeTypes.getD (seedNum seed % 3) "cipher_break"

/-- Modelled from the spec: the cipher-family instance (§4.2) — draw a
message from the pool and a shift from the generator, publish the
ciphertext, keep the upper-case plaintext as the private answer. -/
def genCipher (d : Nat) (seed : String) : ChallengeData :=
  let msg := messagePool.getD (draw seed 0 % messagePool.length) "HELLO WORLD"
  let k := draw seed 1 % 25 + 1
  { type := "cipher_break", difficulty := d,
    title := "Cipher Break",
    description := "Decode the ciphertext and submit the plaintext in upper case.",
    timeLimit := 300,
    ciphertext := some (caesar k msg),
    answer := some msg, solution := none, plaintext := some msg,
    key := some (toString k),
    testCases := none, target := none }

/-- Modelled from the spec: a code-puzzle instance (§4.3) — parameters drawn
from the generator, hidden expected outputs computed by the family's own
reference implementation (here: squaring). -/
def genCodeGolf (d : Nat) (seed : String) : ChallengeData :=
  let a := draw seed 0 % 10
  let b := draw seed 1 % 10 + 10
  let c := draw seed 2 % 10 + 20
  { type := "code_golf", difficulty := d,
    title := "Code Golf",
    description := "Return the square of the input n.",
    timeLimit := 300,
    ciphertext := none,
    answer := none, solution := none, plaintext := none, key := none,
    testCases := some
      [{ input := toString a, expected := some (toString (a * a)), description := none },
       { input := toString b, expected := some (toString (b * b)), description := none },
       { input := toString c, expected := some (toString (c * c)), description := none }],
    target := none }

/-- Modelled from the spec: a hash-hunt instance (SKILL.md difficulty
table: 1-2 → 2 leading zeros, 3 → 3, 4 → 4, 5 → 5); the pattern itself is
the answer key, no extra private data. -/
def genHashHunt (d : Nat) (seed : String) : ChallengeData :=
  let zeros := max 2 (min d 5)
  { type := "hash_hunt", difficulty := d,
    title := "Hash Hunt",
    description := "Find a string whose SHA256 hash starts with the target.",
    timeLimit := 300,
    ciphertext := none,
    answer := none, solution := none, plaintext := none, key := none,
    testCases := none,
    target := some (String.mk (List.replicate zeros '0') ++ toString (draw seed 0 % 100)) }

/-- Modelled from the spec: `generate(type, difficulty, seed) → Challenge`
(§6) — deterministic and total; a null/omitted type falls back to a
catalogue type drawn from the seed; dispatch to the family module. -/
def generateChallenge (t : Option String) (d : Nat) (seed : String) : ChallengeData :=
  let ty := match t with
    | some ty => ty
    | none => chooseFallback seed
  if ty = "code_golf" then genCodeGolf d seed
  else if ty = "hash_hunt" then genHashHunt d seed
  else genCipher d seed

/-- A flat serialization of every field of a challenge, public and private,
used to state byte-identity of two generated payloads. -/
def serializeChallenge (c : ChallengeData) : String :=
  c.type ++ "|" ++ toString c.difficulty ++ "|" ++ c.title ++ "|" ++ c.description ++ "|" ++
  toString c.timeLimit ++ "|" ++ toString (repr c.ciphertext) ++ "|" ++
  toString (repr c.answer) ++ "|" ++ toString (repr c.solution) ++ "|" ++
  toString (repr c.plaintext) ++ "|" ++ toString (repr c.key) ++ "|" ++
  toString (repr c.target)

/-! ## Solution validation

The cipher validator and the code-puzzle judge.  Modelled from the spec
(§4.2-§4.4, SKILL.md): sandbox execution itself is abstracted as an oracle
`run : submission → input → Option output` (`none` = error/timeout/no
value), so the judge's control flow — denylist first, then one run per
hidden case, then scoring — is explicit. -/

structure ValidationResult where
  valid : Bool
  score : Int
  deriving Repr, DecidableEq

/-- Modelled from the spec: cipher validation (SKILL.md: "Must be
UPPERCASE", "The server compares your answer against the expected
plaintext ... just string comparison"; §6: lower case or padded variants
must fail exact match). -/
def validateCipher (sub answerKey : String) : ValidationResult :=
  if sub = answerKey then { valid := true, score := 100 } else { valid := false, score := 0 }

/-- The fixed denylist of capability tokens (SKILL.md "Restrictions"). -/
def denylist : List String :=
  ["require", "import", "process", "eval", "__proto__", "Proxy",
   "Reflect", "globalThis", "child_process", "XMLHttpRequest", "WebSocket"]

/-- A submission is denylisted when it contains any denylist token. -/
def hasDenylisted (s : String) : Bool := denylist.any (containsTok s)

/-- Outcome of judging a code-puzzle submission.  `ranOn` records exactly
which submission text was handed to the sandbox (`none` = the sandbox was
never entered), making "rejected before execution, never silently
sanitized" a statable property. -/
structure GolfResult where
  valid : Bool
  score : Int
  ranOn : Option String
  deriving Repr, DecidableEq

/-- One sandboxed execution of the submission on a test case's input,
compared by value against the private expected output. -/
def runTestCase (run : String → String → Option String) (sub : String) (tc : TestCase) : Bool :=
  match run sub tc.input with
  | some out => some out == tc.expected
  | none => false

/-- All hidden test cases pass. -/
def casesPass (run : String → String → Option String) (sub : String)
    (cases : List TestCase) : Bool :=
  cases.all (runTestCase run sub)

/-- Modelled from the spec: the sandboxed execution judge (§4.4, SKILL.md
"Scoring") — denylist short-circuit before any execution; all cases pass →
score 100 plus length bonus `max(10, 200 − characterCount)`; any failure →
`valid=false, score=0`. -/
def judgeCodeGolf (run : String → String → Option String) (sub : String)
    (cases : List TestCase) : GolfResult :=
  if hasDenylisted sub then { valid := false, score := 0, ranOn := none }
  else if casesPass run sub cases then
    { valid := true, score := 100 + max 10 (200 - (sub.length : Int)), ranOn := some sub }
  else { valid := false, score := 0, ranOn := some sub }

/-! ## Match records and the public projection (`src/unnamed/part_000`) -/

/-- JavaScript truthiness on an optional string: `undefined` and `""` are
falsy (`x || fallback` patterns). -/
def jsTruthyStr : Option String → Option String
  | some s => if s = "" then none else some s
  | none => none

/-- JavaScript `a || b` on nullable strings. -/
def jsOr (a b : Option String) : Option String :=
  match a with
  | some x => some x
  | none => b

/-- A row of the `matches` table (`src/database.js` schema + migrations). -/
structure MatchRow where
  agent1_id : String
  agent2_id : String
  challenge_type : Option String
  challenge_data : ChallengeData
  status : String
  winner_id : Option String
  started_at : Option Nat
  completed_at : Option Nat
  time_limit : Nat
  entry_fee_wei : Nat
  pot_wei : Nat
  arena_cut_wei : Nat
  winner_payout_wei : Nat
  challenge_seed : Option String
  is_practice : Bool
  elo_change_agent1 : Int
  elo_change_agent2 : Int
  deriving Repr, DecidableEq

/-- The `safeChallenge` projection of `GET /api/match/:id`
(`src/unnamed/part_000` lines 673-685): delete `answer`, `solution`,
`plaintext`, `key`; map `testCases` to `{input, description || undefined}`. -/
def safeChallenge (cd : ChallengeData) : ChallengeData :=
  { cd with
    answer := none, solution := none, plaintext := none, key := none,
    testCases := cd.testCases.map (List.map fun tc =>
      { input := tc.input, expected := none, description := jsTruthyStr tc.description }) }

/-- The projection of `GET /api/agent/:id/battles` and `/api/agent/:id`
(`src/unnamed/part_000` lines 864-869, 892-897): same deletions, test
cases reduced to `{input}` only. -/
def safeChallengeBattles (cd : ChallengeData) : ChallengeData :=
  { cd with
    answer := none, solution := none, plaintext := none, key := none,
    testCases := cd.testCases.map (List.map fun tc =>
      { input := tc.input, expected := none, description := none }) }

/-- The payload `GET /api/match/:id` serves: the spread `{...match}` —
every column of the match row, `challenge_seed` included — with
`challenge_data` replaced by its safe projection
(`src/unnamed/part_000` lines 703-711). -/
structure ServedMatch where
  agent1_id : String
  agent2_id : String
  challenge_type : Option String
  challenge_data : ChallengeData
  status : String
  winner_id : Option String
  time_limit : Nat
  entry_fee_wei : Nat
  pot_wei : Nat
  arena_cut_wei : Nat
  winner_payout_wei : Nat
  challenge_seed : Option String
  is_practice : Bool
  deriving Repr, DecidableEq

/-- The match-detail endpoint's projection of a stored match row. -/
def serveMatch (m : MatchRow) : ServedMatch :=
  { agent1_id := m.agent1_id, agent2_id := m.agent2_id,
    challenge_type := m.challenge_type,
    challenge_data := safeChallenge m.challenge_data,
    status := m.status, winner_id := m.winner_id,
    time_limit := m.time_limit, entry_fee_wei := m.entry_fee_wei,
    pot_wei := m.pot_wei, arena_cut_wei := m.arena_cut_wei,
    winner_payout_wei := m.winner_payout_wei,
    challenge_seed := m.challenge_seed, is_practice := m.is_practice }

/-- Answer recovery from served fields alone: re-run the deterministic
generator on the served `challenge_type`, the served `difficulty` and the
served `challenge_seed` and read off its private answer.  Uses nothing
that the caller is not given. -/
def reconstructAnswer (sm : ServedMatch) : Option String :=
  match sm.challenge_seed with
  | none => none
  | some s => (generateChallenge sm.challenge_type sm.challenge_data.difficulty s).answer

/-! ## Match economics (`src/database.js` joinCustomMatch,
`src/unnamed/part_000` tryMatchmaking) -/

/-- `potWei = fee*2`, `arenaCutWei = potWei/10` (BigInt floor division),
`winnerPayoutWei = potWei - arenaCutWei` — the exact integer computation
both `joinCustomMatch` and `tryMatchmaking` perform. -/
def matchEconomics (entryFeeWei : Nat) : Nat × Nat × Nat :=
  let potWei := entryFeeWei * 2
  let arenaCutWei := potWei / 10
  let winnerPayoutWei := potWei - arenaCutWei
  (potWei, arenaCutWei, winnerPayoutWei)

/-- The challenge the join handler generates from the stored seed
(`src/unnamed/part_000` lines 508-513): stored type, difficulty
hard-coded to 3, stored seed. -/
def joinChallenge (ct : Option String) (seed : String) : ChallengeData :=
  generateChallenge ct 3 seed

/-- The match row after `POST /api/match/:id/join` succeeds
(`db.joinCustomMatch`): opponent recorded, status `active`, generated
challenge stored, economics computed from the stored entry fee. -/
def joinedMatch (creator opponent : String) (ct : Option String)
    (fee : Nat) (seed : String) (now : Nat) : MatchRow :=
  let c := joinChallenge ct seed
  let econ := matchEconomics fee
  { agent1_id := creator, agent2_id := opponent, challenge_type := ct,
    challenge_data := c, status := "active", winner_id := none,
    started_at := some now, completed_at := none,
    time_limit := c.timeLimit, entry_fee_wei := fee,
    pot_wei := econ.1, arena_cut_wei := econ.2.1, winner_payout_wei := econ.2.2,
    challenge_seed := some seed, is_practice := false,
    elo_change_agent1 := 0, elo_change_agent2 := 0 }

/-! ## `POST /api/match/create` request validation
(`src/unnamed/part_000` lines 339-401) -/

/-- Minimum entry fee: `parseEther('0.0001')` wei. -/
def minFeeWei : Nat := 100000000000000

/-- The match-create request body as the handler reads it.  `none` models
an absent or falsy-empty field; `entryFeeWei` is the `parseEther` value of
the `entryFee` string. -/
structure CreateRequest where
  challengeType : Option String
  entryFeeWei : Option Nat
  difficulty : Option Nat
  deriving Repr, DecidableEq

/-- The open match record `db.createCustomMatch` inserts. -/
structure CreatedMatch where
  creator_id : String
  challenge_type : Option String
  entry_fee_wei : Nat
  status : String
  challenge_seed : String
  deriving Repr, DecidableEq

/-- JavaScript `difficulty || 3` (`0` is falsy). -/
def jsOrNat (d : Option Nat) (dflt : Nat) : Nat :=
  match d with
  | none => dflt
  | some 0 => dflt
  | some n => n

inductive CreateOutcome where
  | rejected (msg : String)
  | created (record : CreatedMatch) (responseDifficulty : Nat)
  deriving Repr, DecidableEq

/-- `POST /api/match/create`: reject when `challengeType` or `entryFee` is
missing, reject a fee below the minimum, otherwise insert an `open` match
record (type `'random'` stored as null) with a fresh server-generated
seed; no challenge is generated here and neither the type nor the
difficulty is validated.  The response echoes `difficulty || 3`. -/
def matchCreateHandler (agentId : String) (req : CreateRequest) (seed : String) : CreateOutcome :=
  match req.challengeType, req.entryFeeWei with
  | none, _ => .rejected "challengeType and entryFee are required"
  | _, none => .rejected "challengeType and entryFee are required"
  | some ct, some fee =>
    if fee < minFeeWei then .rejected "Entry fee too low"
    else .created
      { creator_id := agentId,
        challenge_type := if ct = "random" then none else some ct,
        entry_fee_wei := fee,
        status := "open",
        challenge_seed := seed }
      (jsOrNat req.difficulty 3)

/-! ## Matchmaking queue (`src/unnamed/part_000` lines 549-657) -/

/-- One `matchQueue` entry (agent id plus normalized preferences). -/
structure QueueEntry where
  agentId : String
  challenge_type : Option String
  difficulty : Nat
  deriving Repr, DecidableEq

/-- The quick match `tryMatchmaking` creates for the two paired agents. -/
structure QuickMatch where
  agent1_id : String
  agent2_id : String
  challenge : ChallengeData
  pot_wei : Nat
  arena_cut_wei : Nat
  winner_payout_wei : Nat
  deriving Repr, DecidableEq

/-- Quick matches use the default entry fee (0.0001 ETH in wei). -/
def quickMatchFeeWei : Nat := 100000000000000

/-- `tryMatchmaking`: with fewer than two entries do nothing; otherwise
shift the two front (longest-waiting) entries, generate a challenge from
`entry1.challenge_type || entry2.challenge_type`, the max difficulty and a
fresh seed, and record the quick-match economics. -/
def tryMatchmaking (q : List QueueEntry) (seed : String) : Option QuickMatch × List QueueEntry :=
  match q with
  | e1 :: e2 :: rest =>
    let c := generateChallenge (jsOr e1.challenge_type e2.challenge_type)
      (max e1.difficulty e2.difficulty) seed
    let econ := matchEconomics quickMatchFeeWei
    (some { agent1_id := e1.agentId, agent2_id := e2.agentId, challenge := c,
            pot_wei := econ.1, arena_cut_wei := econ.2.1,
            winner_payout_wei := econ.2.2 }, rest)
  | _ => (none, q)

inductive QueueOutcome where
  | rejectedPayment
  | rejectedDuplicate
  | queued (position : Nat)
  | matched (quick : QuickMatch)
  deriving Repr, DecidableEq

/-- `POST /api/match/queue`: 402 when the agent cannot afford the fee;
400 `Already in queue` — queue untouched — when the agent already holds a
slot; otherwise push to the back and run `tryMatchmaking`. -/
def queueStep (q : List QueueEntry) (e : QueueEntry) (canAfford : Bool)
    (seed : String) : QueueOutcome × List QueueEntry :=
  if !canAfford then (.rejectedPayment, q)
  else if q.any (fun x => x.agentId == e.agentId) then (.rejectedDuplicate, q)
  else
    match tryMatchmaking (q ++ [e]) seed with
    | (some quick, q2) => (.matched quick, q2)
    | (none, q2) => (.queued q2.length, q2)

/-! ## Persistence-layer state transitions for match completion
(`src/database.js` completeMatch / updateELO / handleMatchPayout) -/

/-- A row of the `agents` table (fields ELO bookkeeping touches). -/
structure AgentRow where
  elo : Int
  wins : Nat
  losses : Nat
  draws : Nat
  deriving Repr, DecidableEq

/-- Database state: association lists keyed by id. -/
structure ArenaDB where
  agents : List (String × AgentRow)
  matchRows : List (String × MatchRow)
  deriving Repr, DecidableEq

/-- `UPDATE ... WHERE id = ?` on an association list. -/
def updateAssoc {β : Type} (ms : List (String × β)) (id : String) (f : β → β) :
    List (String × β) :=
  ms.map fun p => if p.1 = id then (p.1, f p.2) else p

/-- `SELECT * FROM t WHERE id = ?` on an association list (first hit). -/
def findRow {β : Type} (k : String) : List (String × β) → Option β
  | [] => none
  | (k2, v) :: rest => if k = k2 then some v else findRow k rest

/-- `updateELO` (`src/database.js` lines 482-560).  The floating-point ELO
formula (expected scores via `Math.pow`, `Math.round`) is abstracted as the
parameter `calc old1 old2 outcome = (new1, new2)` with `outcome`
`none` = draw, `some true` = agent1 won, `some false` = agent2 won; every
branch and database write is modelled exactly.  Returns `none` when an
agent row is missing (the JavaScript would throw). -/
def updateELO (eloCalc : Int → Int → Option Bool → Int × Int) (db : ArenaDB)
    (matchId : String) (winnerId : Option String) : Option ArenaDB :=
  match findRow matchId db.matchRows with
  | none => some db
  | some m =>
    if m.is_practice then some db
    else
      match findRow m.agent1_id db.agents, findRow m.agent2_id db.agents with
      | some a1, some a2 =>
        let outcome := winnerId.map (fun w => w == m.agent1_id)
        let newElos := eloCalc a1.elo a2.elo outcome
        let db1 := { db with matchRows := updateAssoc db.matchRows matchId fun mm =>
          { mm with elo_change_agent1 := newElos.1 - a1.elo,
                    elo_change_agent2 := newElos.2 - a2.elo } }
        match winnerId with
        | none =>
          let ags := updateAssoc
            (updateAssoc db1.agents m.agent1_id
              (fun a => { a with elo := newElos.1, draws := a.draws + 1 }))
            m.agent2_id (fun a => { a with elo := newElos.2, draws := a.draws + 1 })
          some { db1 with agents := ags }
        | some w =>
          if w == m.agent1_id then
            let ags := updateAssoc
              (updateAssoc db1.agents m.agent1_id
                (fun a => { a with elo := newElos.1, wins := a.wins + 1 }))
              m.agent2_id (fun a => { a with elo := newElos.2, losses := a.losses + 1 })
            some { db1 with agents := ags }
          else
            let ags := updateAssoc
              (updateAssoc db1.agents m.agent1_id
                (fun a => { a with elo := newElos.1, losses := a.losses + 1 }))
              m.agent2_id (fun a => { a with elo := newElos.2, wins := a.wins + 1 })
            some { db1 with agents := ags }
      | _, _ => none

/-- `handleMatchPayout` (`src/database.js` lines 563-582): no database
write at all — it only logs a payout intent, returned here as
`some (winnerId, payoutWei)`; `none` when the match is missing, has a zero
payout, or is a practice match. -/
def handleMatchPayout (db : ArenaDB) (matchId : String) (winnerId : Option String) :
    Option (Option String × Nat) :=
  match findRow matchId db.matchRows with
  | none => none
  | some m =>
    if m.winner_payout_wei = 0 then none
    else if m.is_practice then none
    else some (winnerId, m.winner_payout_wei)

/-- The row update `completeMatch` performs: `SET status = 'completed',
winner_id = ?, completed_at = CURRENT_TIMESTAMP`. -/
def completedRow (winnerId : Option String) (now : Nat) (m : MatchRow) : MatchRow :=
  { m with status := "completed", winner_id := winnerId, completed_at := some now }

/-- `completeMatch` (`src/database.js` lines 285-297): set the match row's
`status`, `winner_id`, `completed_at`, then run `updateELO`, then
`handleMatchPayout`.  Result: the new state and the payout intent. -/
def completeMatch (eloCalc : Int → Int → Option Bool → Int × Int) (db : ArenaDB)
    (matchId : String) (winnerId : Option String) (now : Nat) :
    Option (ArenaDB × Option (Option String × Nat)) :=
  let db1 := { db with matchRows := updateAssoc db.matchRows matchId (completedRow winnerId now) }
  match updateELO eloCalc db1 matchId winnerId with
  | none => none
  | some db2 => some (db2, handleMatchPayout db2 matchId winnerId)

/-! ## Theorems -/

/-- Every family module stamps the requested difficulty on the instance. -/
theorem generate_difficulty (t : Option String) (d : Nat) (s : String) :
    (generateChallenge t d s).difficulty = d := by
  cases t <;>
    simp only [generateChallenge] <;>
    split_ifs <;>
    simp [genCipher, genCodeGolf, genHashHunt]

/-- C2: generation is deterministic — two calls to `generate` on the same
`(type, difficulty, seed)` triple produce byte-identical serialized
payloads and identical private answer keys (the spec-modelled generator is
a pure function of the triple, with no hidden state), and the challenge
stored when a custom match is joined is exactly what regenerating from the
stored seed (type stored, difficulty 3) yields later. -/
theorem generate_deterministic (t : Option String) (d : Nat) (s : String)
    (creator opponent : String) (fee now : Nat) :
    serializeChallenge (generateChallenge t d s) = serializeChallenge (generateChallenge t d s) ∧
    (generateChallenge t d s).answer = (generateChallenge t d s).answer ∧
    (generateChallenge t d s) = (generateChallenge t d s) ∧
    (joinedMatch creator opponent t fee s now).challenge_data = generateChallenge t 3 s :=
  ⟨rfl, rfl, rfl, rfl⟩

/-- C6: `generate` is total — it returns a challenge for every difficulty
and seed — and a null type falls back to a catalogue type drawn from the
seed alone, so the same seed always selects the same fallback type. -/
theorem generate_total_seeded_fallback (t : Option String) (d d' : Nat) (s : String) :
    (∃ c, generateChallenge t d s = c) ∧
    (generateChallenge none d s).type = chooseFallback s ∧
    chooseFallback s ∈ challengeTypes ∧
    (generateChallenge none d s).type = (generateChallenge none d' s).type := by
  have h3 : seedNum s % 3 = 0 ∨ seedNum s % 3 = 1 ∨ seedNum s % 3 = 2 := by omega
  have hty : ∀ dd : Nat, (generateChallenge none dd s).type = chooseFallback s := by
    intro dd
    rcases h3 with h | h | h <;>
      simp [generateChallenge, chooseFallback, challengeTypes, h,
        genCipher, genCodeGolf, genHashHunt]
  refine ⟨⟨_, rfl⟩, hty d, ?_, (hty d).trans (hty d').symm⟩
  rcases h3 with h | h | h <;> simp [chooseFallback, challengeTypes, h]

/-- C7: cipher validation is an exact string match against the stored
upper-case plaintext: a submission validates true iff it is exactly the
plaintext, a whitespace-padded variant always fails, a lower-cased variant
fails whenever it differs from the plaintext, and there is no partial
credit (score is 100 or 0). -/
theorem cipher_exact_match (sub p : String) :
    ((validateCipher sub p).valid = true ↔ sub = p) ∧
    (validateCipher (" " ++ p) p).valid = false ∧
    (lowerStr p ≠ p → (validateCipher (lowerStr p) p).valid = false) ∧
    ((validateCipher sub p).score = 100 ∨ (validateCipher sub p).score = 0) := by
  have hpad : (" " ++ p) ≠ p := by
    intro h
    have hlen := congrArg String.length h
    simp [String.length_append] at hlen
    exact absurd hlen (by decide)
  refine ⟨?_, ?_, ?_, ?_⟩
  · constructor
    · intro h
      by_contra hne
      simp [validateCipher, hne] at h
    · intro h
      simp [validateCipher, h]
  · simp [validateCipher, hpad]
  · intro h
    simp [validateCipher, h]
  · by_cases h : sub = p <;> simp [validateCipher, h]

/-- Witness for C7 at a concrete plaintext. -/
theorem cipher_exact_match_witness :
    lowerStr "HELLO" ≠ "HELLO" ∧
    (validateCipher (lowerStr "HELLO") "HELLO").valid = false ∧
    (validateCipher (" " ++ "HELLO") "HELLO").valid = false ∧
    (validateCipher "HELLO" "HELLO").valid = true :=
  ⟨by decide,
   (cipher_exact_match "x" "HELLO").2.2.1 (by decide),
   (cipher_exact_match "x" "HELLO").2.1,
   (cipher_exact_match "HELLO" "HELLO").1.mpr rfl⟩

/-- C3: code-puzzle scoring — with no denylisted token, an all-passing
submission scores exactly `100 + max 10 (200 − length)` and any failing
case yields `valid=false, score=0`; consequently of two valid submissions
the shorter one never scores lower. -/
theorem code_golf_scoring (run : String → String → Option String) (cases : List TestCase) :
    (∀ sub, hasDenylisted sub = false → casesPass run sub cases = true →
      judgeCodeGolf run sub cases =
        { valid := true, score := 100 + max 10 (200 - (sub.length : Int)), ranOn := some sub }) ∧
    (∀ sub, hasDenylisted sub = false → casesPass run sub cases = false →
      judgeCodeGolf run sub cases = { valid := false, score := 0, ranOn := some sub }) ∧
    (∀ A B, (judgeCodeGolf run A cases).valid = true →
      (judgeCodeGolf run B cases).valid = true →
      A.length < B.length →
      (judgeCodeGolf run B cases).score ≤ (judgeCodeGolf run A cases).score) := by
  refine ⟨?_, ?_, ?_⟩
  · intro sub h1 h2
    simp [judgeCodeGolf, h1, h2]
  · intro sub h1 h2
    simp [judgeCodeGolf, h1, h2]
  · intro A B hA hB hlen
    by_cases dA : hasDenylisted A
    · simp [judgeCodeGolf, dA] at hA
    · by_cases pA : casesPass run A cases
      · by_cases dB : hasDenylisted B
        · simp [judgeCodeGolf, dB] at hB
        · by_cases pB : casesPass run B cases
          · simp only [judgeCodeGolf, dA, pA, dB, pB, if_true, if_false,
              Bool.false_eq_true, ite_false, ite_true]
            have hc : (A.length : Int) < (B.length : Int) := by exact_mod_cast hlen
            simp only [Int.max_def]
            split <;> split <;> omega
          · simp [judgeCodeGolf, dB, pB] at hB
      · simp [judgeCodeGolf, dA, pA] at hA

/-- Witness for C3: a one-character all-passing submission judged against
a concrete case list under a concrete sandbox oracle. -/
theorem code_golf_scoring_witness :
    hasDenylisted "n" = false ∧
    casesPass (fun _ inp => some inp) "n" [{ input := "5", expected := some "5", description := none }] = true ∧
    judgeCodeGolf (fun _ inp => some inp) "n" [{ input := "5", expected := some "5", description := none }] =
      { valid := true, score := 100 + max 10 (200 - ("n".length : Int)), ranOn := some "n" } :=
  ⟨by decide, by decide,
   (code_golf_scoring (fun _ inp => some inp)
     [{ input := "5", expected := some "5", description := none }]).1 "n" (by decide) (by decide)⟩

/-- C4: a submission containing a denylisted capability token is refused
with `valid=false, score=0` and the sandbox is never entered (`ranOn =
none`); a clean submission is handed to the sandbox verbatim (`ranOn =
some sub`), never a sanitized variant. -/
theorem denylist_short_circuit (run : String → String → Option String)
    (sub : String) (cases : List TestCase) :
    (hasDenylisted sub = true →
      judgeCodeGolf run sub cases = { valid := false, score := 0, ranOn := none }) ∧
    (hasDenylisted sub = false → (judgeCodeGolf run sub cases).ranOn = some sub) := by
  constructor
  · intro h
    simp [judgeCodeGolf, h]
  · intro h
    by_cases hp : casesPass run sub cases <;> simp [judgeCodeGolf, h, hp]

/-- Witness for C4: a concrete submission naming a denylisted capability. -/
theorem denylist_short_circuit_witness :
    hasDenylisted "this.constructor.constructor(String.fromCharCode(101)+something)(process)" = true ∧
    judgeCodeGolf (fun _ inp => some inp)
      "this.constructor.constructor(String.fromCharCode(101)+something)(process)"
      [{ input := "5", expected := some "5", description := none }] =
      { valid := false, score := 0, ranOn := none } :=
  ⟨by decide,
   (denylist_short_circuit (fun _ inp => some inp)
     "this.constructor.constructor(String.fromCharCode(101)+something)(process)"
     [{ input := "5", expected := some "5", description := none }]).1 (by decide)⟩

/-- C9: whenever a match gains an opponent — joining a custom match or
pairing two queued agents — the recorded economics are exactly
`pot = 2·fee`, `cut = pot/10` rounded down, `payout = pot − cut`, and no
wei is lost or created: `cut + payout = pot`. -/
theorem match_economics_exact (creator opponent : String) (ct : Option String)
    (fee : Nat) (seed : String) (now : Nat)
    (e1 e2 : QueueEntry) (rest : List QueueEntry) (qseed : String) :
    ((joinedMatch creator opponent ct fee seed now).pot_wei = 2 * fee ∧
     (joinedMatch creator opponent ct fee seed now).arena_cut_wei =
       (joinedMatch creator opponent ct fee seed now).pot_wei / 10 ∧
     (joinedMatch creator opponent ct fee seed now).winner_payout_wei =
       (joinedMatch creator opponent ct fee seed now).pot_wei -
         (joinedMatch creator opponent ct fee seed now).arena_cut_wei ∧
     (joinedMatch creator opponent ct fee seed now).arena_cut_wei +
       (joinedMatch creator opponent ct fee seed now).winner_payout_wei =
       (joinedMatch creator opponent ct fee seed now).pot_wei) ∧
    (∃ quick, (tryMatchmaking (e1 :: e2 :: rest) qseed).1 = some quick ∧
      quick.pot_wei = 2 * quickMatchFeeWei ∧
      quick.arena_cut_wei = quick.pot_wei / 10 ∧
      quick.winner_payout_wei = quick.pot_wei - quick.arena_cut_wei ∧
      quick.arena_cut_wei + quick.winner_payout_wei = quick.pot_wei) := by
  constructor
  · have h1 : (joinedMatch creator opponent ct fee seed now).pot_wei = fee * 2 := rfl
    have h2 : (joinedMatch creator opponent ct fee seed now).arena_cut_wei = fee * 2 / 10 := rfl
    have h3 : (joinedMatch creator opponent ct fee seed now).winner_payout_wei =
        fee * 2 - fee * 2 / 10 := rfl
    rw [h1, h2, h3]
    refine ⟨?_, ?_, ?_, ?_⟩ <;> omega
  · refine ⟨_, rfl, ?_, ?_, ?_, ?_⟩
    · show (matchEconomics quickMatchFeeWei).1 = 2 * quickMatchFeeWei
      rfl
    · show (matchEconomics quickMatchFeeWei).2.1 = (matchEconomics quickMatchFeeWei).1 / 10
      rfl
    · show (matchEconomics quickMatchFeeWei).2.2 =
        (matchEconomics quickMatchFeeWei).1 - (matchEconomics quickMatchFeeWei).2.1
      rfl
    · show (matchEconomics quickMatchFeeWei).2.1 + (matchEconomics quickMatchFeeWei).2.2 =
        (matchEconomics quickMatchFeeWei).1
      rfl

/-- C5 counterexample: a create request with the unknown challenge type
`"bogus"` and the out-of-range difficulty 99 is not rejected — the handler
accepts it and produces an open match record carrying the bogus type. -/
theorem malformed_request_not_rejected :
    matchCreateHandler "agent-1"
      { challengeType := some "bogus", entryFeeWei := some minFeeWei, difficulty := some 99 }
      "seed-1" =
    CreateOutcome.created
      { creator_id := "agent-1", challenge_type := some "bogus",
        entry_fee_wei := minFeeWei, status := "open", challenge_seed := "seed-1" } 99 := by
  decide

/-- C5 (amended): the create handler rejects only a missing
`challengeType` or `entryFee` and a fee below the minimum, each with a
descriptive message and before any match record or challenge is produced;
unknown types and out-of-range difficulties pass through, an open match
record (no challenge generated) is created, and an omitted difficulty
defaults to 3 in the response. -/
theorem create_handler_validation (agentId : String) (req : CreateRequest) (seed : String) :
    (req.challengeType = none →
      matchCreateHandler agentId req seed =
        CreateOutcome.rejected "challengeType and entryFee are required") ∧
    (req.entryFeeWei = none →
      matchCreateHandler agentId req seed =
        CreateOutcome.rejected "challengeType and entryFee are required") ∧
    (∀ ct fee, req.challengeType = some ct → req.entryFeeWei = some fee →
      fee < minFeeWei →
      matchCreateHandler agentId req seed = CreateOutcome.rejected "Entry fee too low") ∧
    (∀ ct fee, req.challengeType = some ct → req.entryFeeWei = some fee →
      minFeeWei ≤ fee →
      matchCreateHandler agentId req seed =
        CreateOutcome.created
          { creator_id := agentId,
            challenge_type := if ct = "random" then none else some ct,
            entry_fee_wei := fee, status := "open", challenge_seed := seed }
          (jsOrNat req.difficulty 3)) := by
  refine ⟨?_, ?_, ?_, ?_⟩
  · intro h
    simp [matchCreateHandler, h]
  · intro h
    rcases hct : req.challengeType with _ | ct <;> simp [matchCreateHandler, h, hct]
  · intro ct fee h1 h2 hlt
    simp [matchCreateHandler, h1, h2, hlt]
  · intro ct fee h1 h2 hge
    simp [matchCreateHandler, h1, h2, Nat.not_lt.mpr hge]

/-- Witness for C5's amended theorem at a concrete well-formed request. -/
theorem create_handler_validation_witness :
    matchCreateHandler "a1"
      { challengeType := some "cipher_break", entryFeeWei := some minFeeWei, difficulty := none }
      "s1" =
    CreateOutcome.created
      { creator_id := "a1", challenge_type := some "cipher_break",
        entry_fee_wei := minFeeWei, status := "open", challenge_seed := "s1" } 3 :=
  (create_handler_validation "a1"
    { challengeType := some "cipher_break", entryFeeWei := some minFeeWei, difficulty := none }
    "s1").2.2.2 "cipher_break" minFeeWei rfl rfl (Nat.le_refl _)

/-- C1 counterexample: for a concrete joined custom match, the served
payload has all four private fields stripped — yet it still carries the
match row's `challenge_seed`, and re-running the deterministic generator
on served fields alone (`challenge_type`, served `difficulty`, served
`challenge_seed`) recovers the private answer exactly. -/
theorem answer_recoverable_from_served_match :
    (serveMatch (joinedMatch "creator-1" "opponent-1" (some "cipher_break") minFeeWei "a3f9c2" 0)).challenge_data.answer = none ∧
    (serveMatch (joinedMatch "creator-1" "opponent-1" (some "cipher_break") minFeeWei "a3f9c2" 0)).challenge_data.plaintext = none ∧
    (serveMatch (joinedMatch "creator-1" "opponent-1" (some "cipher_break") minFeeWei "a3f9c2" 0)).challenge_seed = some "a3f9c2" ∧
    reconstructAnswer (serveMatch (joinedMatch "creator-1" "opponent-1" (some "cipher_break") minFeeWei "a3f9c2" 0)) =
      (joinedMatch "creator-1" "opponent-1" (some "cipher_break") minFeeWei "a3f9c2" 0).challenge_data.answer ∧
    (joinedMatch "creator-1" "opponent-1" (some "cipher_break") minFeeWei "a3f9c2" 0).challenge_data.answer ≠ none := by
  refine ⟨rfl, rfl, rfl, rfl, ?_⟩
  decide

/-- C1 (amended): the public projections (match detail and agent
battles/profile) do remove `answer`, `solution`, `plaintext` and `key`
and reduce code-puzzle test cases to inputs only — but the served payload
still includes the match row's `challenge_seed`, from which (together with
the served type and difficulty) the deterministic generator reconstructs
the private answer, so the full secrecy claim fails. -/
theorem safe_projection_strips (cd : ChallengeData) :
    (safeChallenge cd).answer = none ∧
    (safeChallenge cd).solution = none ∧
    (safeChallenge cd).plaintext = none ∧
    (safeChallenge cd).key = none ∧
    (∀ tcs tc, (safeChallenge cd).testCases = some tcs → tc ∈ tcs → tc.expected = none) ∧
    (safeChallengeBattles cd).answer = none ∧
    (safeChallengeBattles cd).solution = none ∧
    (safeChallengeBattles cd).plaintext = none ∧
    (safeChallengeBattles cd).key = none ∧
    (∀ tcs tc, (safeChallengeBattles cd).testCases = some tcs → tc ∈ tcs → tc.expected = none) ∧
    (∀ creator opponent ct fee now seed,
      (serveMatch (joinedMatch creator opponent ct fee seed now)).challenge_seed = some seed ∧
      reconstructAnswer (serveMatch (joinedMatch creator opponent ct fee seed now)) =
        (joinedMatch creator opponent ct fee seed now).challenge_data.answer) := by
  refine ⟨rfl, rfl, rfl, rfl, ?_, rfl, rfl, rfl, rfl, ?_, ?_⟩
  · intro tcs tc hts hmem
    rcases hcd : cd.testCases with _ | l
    · simp [safeChallenge, hcd] at hts
    · simp only [safeChallenge, hcd, Option.map_some', Option.some.injEq] at hts
      subst hts
      simp only [List.mem_map] at hmem
      obtain ⟨x, _, rfl⟩ := hmem
      rfl
  · intro tcs tc hts hmem
    rcases hcd : cd.testCases with _ | l
    · simp [safeChallengeBattles, hcd] at hts
    · simp only [safeChallengeBattles, hcd, Option.map_some', Option.some.injEq] at hts
      subst hts
      simp only [List.mem_map] at hmem
      obtain ⟨x, _, rfl⟩ := hmem
      rfl
  · intro creator opponent ct fee now seed
    refine ⟨rfl, ?_⟩
    show (generateChallenge ct (safeChallenge (joinChallenge ct seed)).difficulty seed).answer =
      (joinChallenge ct seed).answer
    have hdiff : (safeChallenge (joinChallenge ct seed)).difficulty = 3 := by
      simp [safeChallenge, joinChallenge, generate_difficulty]
    rw [hdiff]
    rfl

/-- Witness for C1's amended theorem at a concrete challenge with a
hidden expected output in its test cases. -/
theorem safe_projection_strips_witness :
    (safeChallenge
      { type := "code_golf", difficulty := 2, title := "t", description := "d",
        timeLimit := 300, ciphertext := none, answer := some "SECRET",
        solution := none, plaintext := none, key := none,
        testCases := some [{ input := "1", expected := some "2", description := none }],
        target := none }).answer = none ∧
    ({ input := "1", expected := none, description := none } : TestCase).expected = none :=
  ⟨(safe_projection_strips
      { type := "code_golf", difficulty := 2, title := "t", description := "d",
        timeLimit := 300, ciphertext := none, answer := some "SECRET",
        solution := none, plaintext := none, key := none,
        testCases := some [{ input := "1", expected := some "2", description := none }],
        target := none }).1,
   (safe_projection_strips
      { type := "code_golf", difficulty := 2, title := "t", description := "d",
        timeLimit := 300, ciphertext := none, answer := some "SECRET",
        solution := none, plaintext := none, key := none,
        testCases := some [{ input := "1", expected := some "2", description := none }],
        target := none }).2.2.2.2.1
     [{ input := "1", expected := none, description := none }]
     { input := "1", expected := none, description := none } rfl (by decide)⟩

/-- The queue `tryMatchmaking` leaves behind is a sublist of the queue it
was given (it only ever shifts entries off the front). -/
theorem tryMatchmaking_snd_sublist (q : List QueueEntry) (s : String) :
    ((tryMatchmaking q s).2).Sublist q := by
  match q with
  | [] => exact List.Sublist.refl _
  | [e] => exact List.Sublist.refl _
  | e1 :: e2 :: rest =>
    exact List.Sublist.cons e1 (List.Sublist.cons e2 (List.Sublist.refl rest))

/-- C8: queue pairing is strictly FIFO — a duplicate queue request by an
already-queued agent is rejected with the queue unchanged; otherwise, when
the queue (after the push) holds at least two entries, exactly the two
front (longest-waiting) entries are removed and matched with each other,
the rest staying queued in order; and the no-duplicate-slot invariant is
preserved by every step. -/
theorem queue_fifo_pairing (q : List QueueEntry) (e : QueueEntry) (seed : String) :
    (q.any (fun x => x.agentId == e.agentId) = true →
      queueStep q e true seed = (QueueOutcome.rejectedDuplicate, q)) ∧
    (q.any (fun x => x.agentId == e.agentId) = false →
      ∀ e1 e2 rest, q ++ [e] = e1 :: e2 :: rest →
        queueStep q e true seed =
          (QueueOutcome.matched
            { agent1_id := e1.agentId, agent2_id := e2.agentId,
              challenge := generateChallenge (jsOr e1.challenge_type e2.challenge_type)
                (max e1.difficulty e2.difficulty) seed,
              pot_wei := (matchEconomics quickMatchFeeWei).1,
              arena_cut_wei := (matchEconomics quickMatchFeeWei).2.1,
              winner_payout_wei := (matchEconomics quickMatchFeeWei).2.2 }, rest)) ∧
    (∀ canAfford : Bool, (q.map QueueEntry.agentId).Nodup →
      (((queueStep q e canAfford seed).2).map QueueEntry.agentId).Nodup) := by
  refine ⟨?_, ?_, ?_⟩
  · intro hdup
    simp [queueStep, hdup]
  · intro hdup e1 e2 rest heq
    simp [queueStep, hdup, heq, tryMatchmaking]
  · intro c hnd
    cases c with
    | false => simpa [queueStep] using hnd
    | true =>
      cases hdup : q.any (fun x => x.agentId == e.agentId) with
      | true => simpa [queueStep, hdup] using hnd
      | false =>
        have hsnd : (queueStep q e true seed).2 = (tryMatchmaking (q ++ [e]) seed).2 := by
          rcases htm : tryMatchmaking (q ++ [e]) seed with ⟨o, q2⟩
          cases o <;> simp [queueStep, hdup, htm]
        have hfresh : e.agentId ∉ q.map QueueEntry.agentId := by
          intro hmem
          rw [List.mem_map] at hmem
          obtain ⟨x, hx, hxe⟩ := hmem
          have := List.any_eq_false.mp hdup x hx
          simp [hxe] at this
        have hq : ((q ++ [e]).map QueueEntry.agentId).Nodup := by
          rw [List.map_append, List.nodup_append]
          exact ⟨hnd, List.nodup_singleton _, by simpa [List.disjoint_singleton] using hfresh⟩
        rw [hsnd]
        exact hq.sublist ((tryMatchmaking_snd_sublist (q ++ [e]) seed).map QueueEntry.agentId)

/-- Witness for C8: a concrete one-entry queue — a fresh agent is paired
with the waiting one (FIFO front pair), and a duplicate request by the
waiting agent is rejected leaving the queue unchanged. -/
theorem queue_fifo_pairing_witness :
    queueStep [{ agentId := "alice", challenge_type := some "code_golf", difficulty := 2 }]
        { agentId := "bob", challenge_type := none, difficulty := 1 } true "qseed" =
      (QueueOutcome.matched
        { agent1_id := "alice", agent2_id := "bob",
          challenge := generateChallenge (some "code_golf") 2 "qseed",
          pot_wei := (matchEconomics quickMatchFeeWei).1,
          arena_cut_wei := (matchEconomics quickMatchFeeWei).2.1,
          winner_payout_wei := (matchEconomics quickMatchFeeWei).2.2 }, []) ∧
    queueStep [{ agentId := "alice", challenge_type := some "code_golf", difficulty := 2 }]
        { agentId := "alice", challenge_type := none, difficulty := 1 } true "qseed" =
      (QueueOutcome.rejectedDuplicate,
        [{ agentId := "alice", challenge_type := some "code_golf", difficulty := 2 }]) := by
  constructor
  · have h := (queue_fifo_pairing
      [{ agentId := "alice", challenge_type := some "code_golf", difficulty := 2 }]
      { agentId := "bob", challenge_type := none, difficulty := 1 } "qseed").2.1
      (by decide)
      { agentId := "alice", challenge_type := some "code_golf", difficulty := 2 }
      { agentId := "bob", challenge_type := none, difficulty := 1 } [] rfl
    exact h
  · exact (queue_fifo_pairing
      [{ agentId := "alice", challenge_type := some "code_golf", difficulty := 2 }]
      { agentId := "alice", challenge_type := none, difficulty := 1 } "qseed").1 (by decide)

/-- Looking up the updated key after an `UPDATE ... WHERE id` sees the
updated row. -/
theorem findRow_updateAssoc_self {β : Type} (ms : List (String × β)) (id : String) (f : β → β) :
    findRow id (updateAssoc ms id f) = (findRow id ms).map f := by
  induction ms with
  | nil => rfl
  | cons p ms ih =>
    obtain ⟨k, v⟩ := p
    simp only [updateAssoc, List.map_cons] at ih ⊢
    by_cases h : k = id
    · subst h
      rw [if_pos rfl]
      simp [findRow]
    · rw [if_neg h]
      simp only [findRow]
      rw [if_neg (Ne.symm h), if_neg (Ne.symm h)]
      exact ih

/-- Looking up any other key after an `UPDATE ... WHERE id` is unchanged. -/
theorem findRow_updateAssoc_ne {β : Type} (ms : List (String × β)) (id k : String)
    (f : β → β) (h : k ≠ id) :
    findRow k (updateAssoc ms id f) = findRow k ms := by
  induction ms with
  | nil => rfl
  | cons p ms ih =>
    obtain ⟨k2, v⟩ := p
    simp only [updateAssoc, List.map_cons] at ih ⊢
    by_cases h2 : k2 = id
    · subst h2
      rw [if_pos rfl]
      simp only [findRow]
      rw [if_neg h, if_neg h]
      exact ih
    · rw [if_neg h2]
      simp only [findRow]
      by_cases h4 : k = k2
      · rw [if_pos h4, if_pos h4]
      · rw [if_neg h4, if_neg h4]
        exact ih

/-- C10: completing a practice match is a pure frame update — `updateELO`
and `handleMatchPayout` both return without touching any agents row or
issuing a payout, and the only change is the match row's `status`,
`winner_id` and `completed_at`. -/
theorem practice_match_frame (eloCalc : Int → Int → Option Bool → Int × Int)
    (db : ArenaDB) (matchId : String) (winnerId : Option String) (now : Nat)
    (m : MatchRow) (hm : findRow matchId db.matchRows = some m)
    (hp : m.is_practice = true) :
    ∃ db', completeMatch eloCalc db matchId winnerId now = some (db', none) ∧
      db'.agents = db.agents ∧
      findRow matchId db'.matchRows =
        some { m with status := "completed", winner_id := winnerId,
                      completed_at := some now } ∧
      (∀ k, k ≠ matchId → findRow k db'.matchRows = findRow k db.matchRows) := by
  have hl1 : findRow matchId (updateAssoc db.matchRows matchId (completedRow winnerId now)) =
      some (completedRow winnerId now m) := by
    rw [findRow_updateAssoc_self, hm]
    rfl
  have hpractice : (completedRow winnerId now m).is_practice = true := hp
  refine ⟨{ db with matchRows := updateAssoc db.matchRows matchId (completedRow winnerId now) },
    ?_, rfl, hl1, ?_⟩
  · have hu : updateELO eloCalc
        { db with matchRows := updateAssoc db.matchRows matchId (completedRow winnerId now) }
        matchId winnerId =
        some { db with matchRows := updateAssoc db.matchRows matchId (completedRow winnerId now) } := by
      simp only [updateELO, hl1, hpractice, if_true]
    have hpay : handleMatchPayout
        { db with matchRows := updateAssoc db.matchRows matchId (completedRow winnerId now) }
        matchId winnerId = none := by
      simp only [handleMatchPayout, hl1]
      by_cases hz : (completedRow winnerId now m).winner_payout_wei = 0 <;>
        simp [hz, hpractice]
    show (match updateELO eloCalc
        { db with matchRows := updateAssoc db.matchRows matchId (completedRow winnerId now) }
        matchId winnerId with
      | none => none
      | some db2 => some (db2, handleMatchPayout db2 matchId winnerId)) = _
    rw [hu]
    exact congrArg (fun o => some
      ({ db with matchRows := updateAssoc db.matchRows matchId (completedRow winnerId now) }, o))
      hpay
  · intro k hk
    exact findRow_updateAssoc_ne db.matchRows matchId k (completedRow winnerId now) hk

/-- A concrete practice match row for the C10 witness. -/
def practiceRow : MatchRow :=
  { agent1_id := "a1", agent2_id := "practice-bot-001",
    challenge_type := some "cipher_break",
    challenge_data := generateChallenge (some "cipher_break") 1 "seedp",
    status := "active", winner_id := none, started_at := some 0, completed_at := none,
    time_limit := 120, entry_fee_wei := 0, pot_wei := 0, arena_cut_wei := 0,
    winner_payout_wei := 0, challenge_seed := some "seedp", is_practice := true,
    elo_change_agent1 := 0, elo_change_agent2 := 0 }

/-- A concrete two-agent database holding one practice match. -/
def practiceDB : ArenaDB :=
  { agents := [("a1", { elo := 1000, wins := 0, losses := 0, draws := 0 }),
               ("practice-bot-001", { elo := 1000, wins := 0, losses := 0, draws := 0 })],
    matchRows := [("m1", practiceRow)] }

/-- Witness for C10 at the concrete practice database. -/
theorem practice_match_frame_witness :
    ∃ db', completeMatch (fun a b _ => (a, b)) practiceDB "m1" (some "a1") 5 = some (db', none) ∧
      db'.agents = practiceDB.agents ∧
      findRow "m1" db'.matchRows =
        some { practiceRow with status := "completed", winner_id := some "a1",
                                completed_at := some 5 } := by
  obtain ⟨db', h1, h2, h3, _⟩ :=
    practice_match_frame (fun a b _ => (a, b)) practiceDB "m1" (some "a1") 5 practiceRow rfl rfl
  exact ⟨db', h1, h2, h3⟩

end DaemonArena
